import Mathlib

/-!
Shallow embedding of `src/app.py` (a single-file trends dashboard):
the static region/geo-code catalog, the trend fetcher, the picking-up
classifier, the chart builder and the dashboard orchestration, together
with theorems settling the specified properties.

Interest scores are modelled as rationals; dates as integers (only their
order matters).  A pandas data frame holding the fetched series is
modelled as parallel `date` / `interest` columns plus an optional
`rolling` column (absent until `build_chart` writes it).
-/

namespace App

/-- `REGIONS` of `app.py`: region name to ordered list of state names. -/
def REGIONS : List (String × List String) :=
  [("North", ["Delhi", "Uttar Pradesh", "Uttarakhand", "Himachal Pradesh",
              "Punjab", "Haryana", "Jammu and Kashmir", "Rajasthan"]),
   ("East",  ["West Bengal", "Bihar", "Jharkhand", "Odisha",
              "Assam", "Meghalaya", "Manipur", "Mizoram",
              "Nagaland", "Tripura", "Arunachal Pradesh", "Sikkim"]),
   ("West",  ["Maharashtra", "Gujarat", "Goa"]),
   ("Central", ["Madhya Pradesh", "Chhattisgarh"]),
   ("South", ["Karnataka", "Tamil Nadu", "Andhra Pradesh", "Telangana",
              "Kerala"])]

/-- `GEO_CODES` of `app.py`: state name to pytrends geo code. -/
def GEO_CODES : List (String × String) :=
  [("Andhra Pradesh", "IN-AP"), ("Arunachal Pradesh", "IN-AR"),
   ("Assam", "IN-AS"), ("Bihar", "IN-BR"), ("Chhattisgarh", "IN-CT"),
   ("Goa", "IN-GA"), ("Gujarat", "IN-GJ"), ("Haryana", "IN-HR"),
   ("Himachal Pradesh", "IN-HP"), ("Jammu and Kashmir", "IN-JK"),
   ("Jharkhand", "IN-JH"), ("Karnataka", "IN-KA"), ("Kerala", "IN-KL"),
   ("Madhya Pradesh", "IN-MP"), ("Maharashtra", "IN-MH"),
   ("Manipur", "IN-MN"), ("Meghalaya", "IN-ML"), ("Mizoram", "IN-MZ"),
   ("Nagaland", "IN-NL"), ("Odisha", "IN-OR"), ("Punjab", "IN-PB"),
   ("Rajasthan", "IN-RJ"), ("Sikkim", "IN-SK"), ("Tamil Nadu", "IN-TN"),
   ("Telangana", "IN-TG"), ("Tripura", "IN-TR"), ("Uttar Pradesh", "IN-UP"),
   ("Uttarakhand", "IN-UT"), ("West Bengal", "IN-WB"), ("Delhi", "IN-DL")]

/-- One row of the raw table delivered by the external pytrends client
(`interest_over_time` yields a date index, the keyword column and an
`isPartial` column that `fetch_trend` drops). -/
structure RawRow where
  date : Int
  value : ℚ
  isPartial : Bool
deriving DecidableEq, Repr

/-- The normalised two-column frame produced by `fetch_trend`, with the
optional derived `rolling` column that `build_chart` may write.
`date` and `interest` are parallel columns of the same length. -/
structure DataFrame where
  date : List Int
  interest : List ℚ
  rolling : Option (List ℚ)
deriving DecidableEq, Repr

/-- Row count of the frame (`len(df)` in the source). -/
def DataFrame.nrows (df : DataFrame) : Nat := df.interest.length

/-- Arithmetic mean of a list of rationals (`Series.mean`). -/
def mean (xs : List ℚ) : ℚ := xs.sum / xs.length

/-- `fetch_trend` of `app.py`, with the external client's behaviour made
explicit as an argument: the client either raises (`Except.error`) or
delivers a raw table.  An empty table or any exception collapses to
`none`; otherwise the keyword column is selected, the index reset and the
columns renamed to `date` / `interest`, preserving the delivered row
order. -/
def fetch_trend {E : Type} (resp : Except E (List RawRow)) :
    Option DataFrame :=
  match resp with
  | .error _ => none
  | .ok raw =>
    if raw.isEmpty then none
    else some ⟨raw.map RawRow.date, raw.map RawRow.value, none⟩

/-- `is_picking_up` of `app.py`: `None` or fewer than 10 rows is `false`;
otherwise compare the mean of the first 7 interest values with the mean
of the last 7 against a 10% growth threshold (strictly). -/
def is_picking_up : Option DataFrame → Bool
  | none => false
  | some df =>
    if df.nrows < 10 then false
    else
      let first := mean (df.interest.take 7)
      let last := mean (df.interest.drop (df.nrows - 7))
      decide (first * (11 / 10) < last)

/-- Trailing rolling mean with window `w` and `min_periods=1`
(`Series.rolling(w, min_periods=1).mean()`): entry `i` is the mean of the
up-to-`w` values ending at position `i`. -/
def rolling_mean (w : Nat) (xs : List ℚ) : List ℚ :=
  (List.range xs.length).map fun i => mean ((xs.take (i + 1)).drop (i + 1 - w))

/-- One plotly trace as `build_chart` configures it. -/
structure Trace where
  x : List Int
  y : List ℚ
  mode : String
  color : String
  dash : Option String
  name : String
deriving DecidableEq, Repr

/-- The chart description `build_chart` constructs. -/
structure Fig where
  traces : List Trace
  title : String
  height : Nat
  showlegend : Bool
  yrange : ℚ × ℚ
deriving DecidableEq, Repr

/-- `build_chart` of `app.py`.  The Python function mutates its input in
place (`df["rolling"] = ...`), so the embedding returns both the chart
and the state of the frame after the call. -/
def build_chart (df : DataFrame) (state : String) (picking : Bool) :
    Fig × DataFrame :=
  let color := if picking then "#e74c3c" else "#3498db"
  let t1 : Trace := ⟨df.date, df.interest, "lines+markers", color, none, state⟩
  let df2 : DataFrame := ⟨df.date, df.interest, some (rolling_mean 5 df.interest)⟩
  let t2 : Trace := ⟨df2.date, (df2.rolling).getD [], "lines", color, some "dot", "7-day avg"⟩
  (⟨[t1, t2], state, 220, false, (0, 105)⟩, df2)

/-- The areas of one region (`REGIONS[r]`). -/
def regionAreas (r : String) : List String := ((REGIONS.lookup r).getD [])

/-- The flattened fetch list built by the orchestrator loop
(`states_to_show = []; for r in selected: states_to_show.extend(REGIONS[r])`). -/
def states_to_show (selected : List String) : List String :=
  selected.foldl (fun acc r => acc ++ regionAreas r) []

/-- The fetched results, keyed by state (`all_data` in the source): an
association list standing for the dict built by the fetch loop. -/
abbrev AllData := List (String × Option DataFrame)

/-- `picking_states`: the states whose series classifies as picking up. -/
def picking_states (all_data : AllData) : List String :=
  (all_data.filter fun sd => is_picking_up sd.2).map Prod.fst

/-- `stable_states`: the states with a present series not picking up
(`d is not None and not is_picking_up(d)`). -/
def stable_states (all_data : AllData) : List String :=
  (all_data.filter fun sd => sd.2.isSome && !is_picking_up sd.2).map Prod.fst

/-- `no_data_states`: the states whose fetch produced `None`. -/
def no_data_states (all_data : AllData) : List String :=
  (all_data.filter fun sd => sd.2.isNone).map Prod.fst

/-- `date` column sorted ascending (the ordering property the spec asserts
of a fetched table). -/
def sortedByDate (df : DataFrame) : Prop := df.date.Chain' (· ≤ ·)

/-- The charts rendered for one region: the region's states present in
`all_data`, in catalog order, keeping a chart exactly when the frame is
present and non-empty (otherwise the source shows a warning instead). -/
def region_charts (all_data : AllData) (region : String) :
    List (String × Fig) :=
  (regionAreas region).filterMap fun s =>
    match all_data.lookup s with
    | none => none
    | some none => none
    | some (some df) =>
      if df.nrows = 0 then none
      else some (s, (build_chart df s (is_picking_up (some df))).1)

/-- What one top-to-bottom run of the main script renders: whether the
empty-selection warning fired, which geo codes were fetched, the summary
counts, and the per-state charts. -/
structure Render where
  warned : Bool
  fetched : List String
  counts : Option (Nat × Nat × Nat)
  charts : List (String × Fig)
deriving DecidableEq, Repr

/-- The main-script orchestration of `app.py`, with the external client
abstracted as a function from geo code to a response.  An empty region
selection warns and stops (`st.stop()`) before any fetch, tally or chart;
otherwise the flattened states are fetched sequentially (skipping states
without a geo code, as `GEO_CODES.get` does), the three summary counts
are tallied and charts are built region by region. -/
def orchestrate (selected : List String)
    (client : String → Except Unit (List RawRow)) : Render :=
  if selected.isEmpty then ⟨true, [], none, []⟩
  else
    let states := states_to_show selected
    let all_data : AllData :=
      states.filterMap fun s =>
        (GEO_CODES.lookup s).map fun g => (s, fetch_trend (client g))
    ⟨false,
     states.filterMap fun s => GEO_CODES.lookup s,
     some ((picking_states all_data).length, (stable_states all_data).length,
           (no_data_states all_data).length),
     (selected.map fun r => region_charts all_data r).flatten⟩

instance (df : DataFrame) : Decidable (sortedByDate df) :=
  inferInstanceAs (Decidable (df.date.Chain' (· ≤ ·)))

/-- A 14-point series whose first 7 interest scores average 50 and whose
last 7 average 55: growth of exactly 10%. -/
def tenPercentSeries : DataFrame :=
  ⟨(List.range 14).map Int.ofNat,
   List.replicate 7 (50 : ℚ) ++ List.replicate 7 55, none⟩

/-- A 10-point series: the first-7 and last-7 windows overlap on
positions 3–6 and are used as-is (first mean 400/7, last mean 100). -/
def overlapSeries : DataFrame :=
  ⟨(List.range 10).map Int.ofNat,
   [0, 0, 0, 100, 100, 100, 100, 100, 100, 100], none⟩

/-- A small two-row fetched frame (no `rolling` column yet). -/
def sampleFrame : DataFrame := ⟨[0, 1], [3, 5], none⟩

/-- A client delivery whose rows are not in ascending date order. -/
def unsortedDelivery : List RawRow := [⟨2, 10, false⟩, ⟨1, 20, false⟩]

/-- A 14-point sharply rising series (first 7 scores 10, last 7 scores 90). -/
def keralaFrame : DataFrame :=
  ⟨(List.range 14).map Int.ofNat,
   List.replicate 7 (10 : ℚ) ++ List.replicate 7 90, none⟩

/-- A concrete fetch-result map: one picking-up state, one stable state,
one absent state. -/
def sampleAllData : AllData :=
  [("Kerala", some keralaFrame), ("Goa", some sampleFrame), ("Assam", none)]

/-- C1: for every present series with at least 10 data points, the
classifier returns picking-up iff the mean of the last 7 interest scores
strictly exceeds 1.1 times the mean of the first 7; growth of exactly 10%
(first-7 mean 50, last-7 mean 55) yields stable, and for a 10-point
series the two overlapping 7-point windows are used as-is. -/
theorem is_picking_up_iff_growth :
    (∀ df : DataFrame, 10 ≤ df.nrows →
      (is_picking_up (some df) = true ↔
        (df.interest.drop (df.nrows - 7)).sum / 7 >
          (df.interest.take 7).sum / 7 * (11 / 10))) ∧
    is_picking_up (some tenPercentSeries) = false ∧
    is_picking_up (some overlapSeries) = true := by
  refine ⟨fun df h => ?_, by with_unfolding_all decide,
    by with_unfolding_all decide⟩
  have hlen : 10 ≤ df.interest.length := h
  have h1 : (df.interest.take 7).length = 7 := by
    simp only [List.length_take]
    omega
  have h2 : (df.interest.drop (df.interest.length - 7)).length = 7 := by
    simp only [List.length_drop]
    omega
  simp only [is_picking_up, DataFrame.nrows, if_neg (by omega : ¬ df.interest.length < 10),
    mean, h1, h2, decide_eq_true_eq, gt_iff_lt, Nat.cast_ofNat]

/-- C1 witness: the amended/confirmed classifier equivalence applied to
the concrete 14-point ten-percent-growth series. -/
theorem is_picking_up_iff_growth_witness :
    10 ≤ tenPercentSeries.nrows ∧
      (is_picking_up (some tenPercentSeries) = true ↔
        (tenPercentSeries.interest.drop (tenPercentSeries.nrows - 7)).sum / 7 >
          (tenPercentSeries.interest.take 7).sum / 7 * (11 / 10)) :=
  ⟨by decide, is_picking_up_iff_growth.1 tenPercentSeries (by decide)⟩

/-- C2: an absent series, or a present one with fewer than 10 points,
classifies as stable (the classifier returns `false`, never picking-up). -/
theorem classify_insufficient :
    is_picking_up none = false ∧
    ∀ df : DataFrame, df.nrows < 10 → is_picking_up (some df) = false := by
  refine ⟨rfl, fun df h => ?_⟩
  simp [is_picking_up, if_pos h]

/-- C2 witness: the conservative default on a concrete 2-point series. -/
theorem classify_insufficient_witness :
    sampleFrame.nrows < 10 ∧ is_picking_up (some sampleFrame) = false :=
  ⟨by decide, classify_insufficient.2 sampleFrame (by decide)⟩

/-- C10: with no region selected, the run warns and halts before anything
downstream: no geo code is fetched, no counts are tallied, no chart is
built. -/
theorem empty_selection_halts (client : String → Except Unit (List RawRow)) :
    orchestrate [] client = ⟨true, [], none, []⟩ := rfl

/-- C3 counterexample: the chart builder writes the rolling-average
column onto its input frame, and the column is still there after the
call — the frame's columns are not the same as before the call. -/
theorem build_chart_mutates :
    sampleFrame.rolling = none ∧
    (build_chart sampleFrame "Goa" false).2.rolling = some [3, 4] ∧
    (build_chart sampleFrame "Goa" false).2 ≠ sampleFrame := by
  refine ⟨rfl, ?_, ?_⟩ <;> with_unfolding_all decide

/-- C3 amended: the chart builder leaves the `date` and `interest`
columns unchanged and has no effect beyond constructing the chart and
writing the derived rolling-average column, which persists on the input
frame after the call. -/
theorem build_chart_frame_effect (df : DataFrame) (state : String)
    (picking : Bool) :
    (build_chart df state picking).2.date = df.date ∧
    (build_chart df state picking).2.interest = df.interest ∧
    (build_chart df state picking).2.rolling =
      some (rolling_mean 5 df.interest) := by
  simp [build_chart]

/-- C4 counterexample: the fetcher does not sort; rows out of date order
from the client come back out of date order. -/
theorem fetch_no_sort :
    fetch_trend (Except.ok unsortedDelivery : Except Unit (List RawRow)) =
      some ⟨[2, 1], [10, 20], none⟩ ∧
    ¬ sortedByDate ⟨[2, 1], [10, 20], none⟩ := by
  refine ⟨?_, ?_⟩
  · with_unfolding_all decide
  · simp [sortedByDate, List.chain'_cons]

/-- C4 amended: on a successful non-empty client response the fetcher
returns the two-column (date, interest) table with the rows in exactly
the client's delivery order; the result is sorted by date ascending iff
the client delivered its rows sorted by date ascending. -/
theorem fetch_preserves_client_order (raw : List RawRow) (h : raw ≠ []) :
    fetch_trend (Except.ok raw : Except Unit (List RawRow)) =
      some ⟨raw.map RawRow.date, raw.map RawRow.value, none⟩ ∧
    (sortedByDate ⟨raw.map RawRow.date, raw.map RawRow.value, none⟩ ↔
      raw.Chain' (fun a b => a.date ≤ b.date)) := by
  constructor
  · simp [fetch_trend, h]
  · simpa [sortedByDate] using
      List.chain'_map RawRow.date (R := (· ≤ ·)) (l := raw)

/-- C4 witness: order preservation applied to the concrete unsorted
delivery. -/
theorem fetch_preserves_client_order_witness :
    unsortedDelivery ≠ [] ∧
      (fetch_trend (Except.ok unsortedDelivery : Except Unit (List RawRow)) =
        some ⟨unsortedDelivery.map RawRow.date,
              unsortedDelivery.map RawRow.value, none⟩ ∧
      (sortedByDate ⟨unsortedDelivery.map RawRow.date,
                     unsortedDelivery.map RawRow.value, none⟩ ↔
        unsortedDelivery.Chain' (fun a b => a.date ≤ b.date))) :=
  ⟨by decide, fetch_preserves_client_order unsortedDelivery (by decide)⟩

/-- C5: the fetcher returns Absent exactly when the client raises (any
exception, any payload) or delivers an empty result set; the two causes
produce the same value, and the fetcher itself is total. -/
theorem fetch_absent_iff {E : Type} (resp : Except E (List RawRow)) :
    fetch_trend resp = none ↔
      (∃ e, resp = Except.error e) ∨ resp = Except.ok [] := by
  cases resp with
  | error e => simp [fetch_trend]
  | ok raw =>
    by_cases hr : raw = [] <;> simp [fetch_trend, hr, List.isEmpty_iff]

theorem length_rolling_mean (w : Nat) (xs : List ℚ) :
    (rolling_mean w xs).length = xs.length := by
  simp [rolling_mean]

theorem head_rolling_mean (x : ℚ) (t : List ℚ) :
    (rolling_mean 5 (x :: t)).head? = some x := by
  simp [rolling_mean, List.range_succ_eq_map, mean]

theorem get_rolling_mean (xs : List ℚ) (i : Nat) (hi : i < xs.length) :
    (rolling_mean 5 xs)[i]? =
      some (mean ((xs.take (i + 1)).drop (i + 1 - 5))) := by
  simp [rolling_mean, List.getElem?_range, hi]

/-- C6: for a non-empty input series, the rolling-average column written
at chart-build time has the same length as the input, its first element
equals the input's first interest value, and each entry is the mean of
the trailing window of size min(i+1, 5), never smaller than 1. -/
theorem rolling_column_spec (df : DataFrame) (s : String) (p : Bool)
    (h : df.interest ≠ []) :
    ∃ r : List ℚ, (build_chart df s p).2.rolling = some r ∧
      r.length = df.interest.length ∧
      r.head? = df.interest.head? ∧
      ∀ i, i < df.interest.length →
        ∃ w : List ℚ, w = (df.interest.take (i + 1)).drop (i + 1 - 5) ∧
          w.length = min (i + 1) 5 ∧ 1 ≤ w.length ∧
          r[i]? = some (w.sum / w.length) := by
  refine ⟨rolling_mean 5 df.interest, by simp [build_chart],
    length_rolling_mean 5 df.interest, ?_, ?_⟩
  · obtain ⟨x, t, hxt⟩ := List.exists_cons_of_ne_nil h
    rw [hxt, head_rolling_mean, List.head?_cons]
  · intro i hi
    refine ⟨(df.interest.take (i + 1)).drop (i + 1 - 5), rfl, ?_, ?_, ?_⟩
    · simp only [List.length_drop, List.length_take]
      omega
    · simp only [List.length_drop, List.length_take]
      omega
    · simpa [mean] using get_rolling_mean df.interest i hi

/-- C6 witness: the rolling-column properties applied to the concrete
two-row frame. -/
theorem rolling_column_spec_witness :
    sampleFrame.interest ≠ [] ∧
      (∃ r : List ℚ,
        (build_chart sampleFrame "Goa" false).2.rolling = some r ∧
        r.length = sampleFrame.interest.length ∧
        r.head? = sampleFrame.interest.head? ∧
        ∀ i, i < sampleFrame.interest.length →
          ∃ w : List ℚ,
            w = (sampleFrame.interest.take (i + 1)).drop (i + 1 - 5) ∧
            w.length = min (i + 1) 5 ∧ 1 ≤ w.length ∧
            r[i]? = some (w.sum / w.length)) :=
  ⟨by decide, rolling_column_spec sampleFrame "Goa" false (by decide)⟩

theorem foldl_extend_eq_flatten (l acc : List String) :
    l.foldl (fun a r => a ++ regionAreas r) acc =
      acc ++ (l.map regionAreas).flatten := by
  induction l generalizing acc with
  | nil => simp
  | cons r t ih => simp [ih, List.append_assoc]

/-- C8: the flattened fetch list is the concatenation of the selected
regions' area lists, preserving selection order and each region's own
order; for the selection consisting of South alone it is exactly the
South list as declared. -/
theorem states_to_show_spec :
    (∀ selected : List String,
      states_to_show selected = (selected.map regionAreas).flatten) ∧
    states_to_show ["South"] =
      ["Karnataka", "Tamil Nadu", "Andhra Pradesh", "Telangana", "Kerala"] := by
  refine ⟨fun selected => ?_, by decide⟩
  simpa [states_to_show] using foldl_extend_eq_flatten selected []

/-- C9: every area named in some region's list has exactly one entry in
the geo-code mapping, and no area appears in the lists of two different
regions. -/
theorem catalog_integrity :
    (∀ p ∈ REGIONS, ∀ a ∈ p.2, (GEO_CODES.map Prod.fst).count a = 1) ∧
    (∀ p ∈ REGIONS, ∀ q ∈ REGIONS, p.1 ≠ q.1 → ∀ a ∈ p.2, a ∉ q.2) := by
  constructor <;> decide

/-- C9 witness: the catalog facts instantiated at Kerala, listed under
South and absent from North. -/
theorem catalog_integrity_witness :
    (GEO_CODES.map Prod.fst).count "Kerala" = 1 ∧
    "Kerala" ∉ ["Delhi", "Uttar Pradesh", "Uttarakhand", "Himachal Pradesh",
                "Punjab", "Haryana", "Jammu and Kashmir", "Rajasthan"] :=
  ⟨catalog_integrity.1 ("South", ["Karnataka", "Tamil Nadu", "Andhra Pradesh",
      "Telangana", "Kerala"]) (by decide) "Kerala" (by decide),
   catalog_integrity.2 ("South", ["Karnataka", "Tamil Nadu", "Andhra Pradesh",
      "Telangana", "Kerala"]) (by decide)
     ("North", ["Delhi", "Uttar Pradesh", "Uttarakhand", "Himachal Pradesh",
      "Punjab", "Haryana", "Jammu and Kashmir", "Rajasthan"]) (by decide)
     (by decide) "Kerala" (by decide)⟩

theorem mem_tally {l : AllData} {p : String × Option DataFrame → Bool}
    {s : String} :
    s ∈ (l.filter p).map Prod.fst ↔ ∃ d, (s, d) ∈ l ∧ p (s, d) = true := by
  constructor
  · intro hm
    rcases List.mem_map.1 hm with ⟨⟨a, d⟩, hmem, rfl⟩
    rcases List.mem_filter.1 hmem with ⟨h1, h2⟩
    exact ⟨d, h1, h2⟩
  · rintro ⟨d, h1, h2⟩
    exact List.mem_map.2 ⟨(s, d), List.mem_filter.2 ⟨h1, h2⟩, rfl⟩

theorem key_unique {l : AllData} (h : (l.map Prod.fst).Nodup)
    {s : String} {d1 d2 : Option DataFrame}
    (h1 : (s, d1) ∈ l) (h2 : (s, d2) ∈ l) : d1 = d2 := by
  induction l with
  | nil => cases h1
  | cons hd t ih =>
    rw [List.map_cons, List.nodup_cons] at h
    rcases List.mem_cons.1 h1 with he1 | ht1 <;>
      rcases List.mem_cons.1 h2 with he2 | ht2
    · rw [← he1] at he2
      exact (Prod.mk.injEq _ _ _ _ ▸ he2.symm).2
    · cases he1
      exact absurd (List.mem_map_of_mem Prod.fst ht2) h.1
    · cases he2
      exact absurd (List.mem_map_of_mem Prod.fst ht1) h.1
    · exact ih h.2 ht1 ht2

theorem picking_isSome {d : Option DataFrame}
    (h : is_picking_up d = true) : d.isSome = true := by
  cases d with
  | none => cases h
  | some df => rfl

theorem counts_sum (l : AllData) :
    (picking_states l).length + (stable_states l).length +
      (no_data_states l).length = l.length := by
  induction l with
  | nil => rfl
  | cons hd t ih =>
    obtain ⟨s, d⟩ := hd
    simp only [picking_states, stable_states, no_data_states,
      List.length_map, List.filter_cons] at ih ⊢
    cases d with
    | none =>
      simp only [show is_picking_up (none : Option DataFrame) = false from rfl,
        Option.isNone_none, Option.isSome_none, Bool.false_and, if_false,
        if_true, List.length_cons, Bool.false_eq_true, if_neg, reduceIte]
      omega
    | some df =>
      rcases hp : is_picking_up (some df) with _ | _ <;>
        simp only [hp, Option.isNone_some, Option.isSome_some, Bool.not_false,
          Bool.not_true, Bool.and_false, Bool.and_true, Bool.true_and, if_false,
          if_true, List.length_cons, Bool.false_eq_true, reduceIte] <;>
        omega

/-- C7: for any fetched-results map with distinct state keys, the three
summary lists (picking up, stable, no data) are pairwise disjoint,
together cover exactly the fetched states, and their lengths sum to the
number of fetched states. -/
theorem summary_partition (all_data : AllData)
    (hkeys : (all_data.map Prod.fst).Nodup) :
    ((∀ s, s ∈ picking_states all_data → s ∉ stable_states all_data) ∧
     (∀ s, s ∈ picking_states all_data → s ∉ no_data_states all_data) ∧
     (∀ s, s ∈ stable_states all_data → s ∉ no_data_states all_data)) ∧
    (∀ s, s ∈ all_data.map Prod.fst ↔
      s ∈ picking_states all_data ∨ s ∈ stable_states all_data ∨
        s ∈ no_data_states all_data) ∧
    (picking_states all_data).length + (stable_states all_data).length +
      (no_data_states all_data).length = all_data.length := by
  refine ⟨⟨?_, ?_, ?_⟩, ?_, counts_sum all_data⟩
  · intro s hp hst
    rcases mem_tally.1 hp with ⟨d1, hm1, hb1⟩
    rcases mem_tally.1 hst with ⟨d2, hm2, hb2⟩
    cases key_unique hkeys hm1 hm2
    simp only [Bool.and_eq_true, Bool.not_eq_eq_eq_not, Bool.not_true] at hb2
    exact absurd hb1 (by simp [hb2.2])
  · intro s hp hnd
    rcases mem_tally.1 hp with ⟨d1, hm1, hb1⟩
    rcases mem_tally.1 hnd with ⟨d2, hm2, hb2⟩
    cases key_unique hkeys hm1 hm2
    have hsome := picking_isSome hb1
    have hd : d1 = none := Option.isNone_iff_eq_none.1 hb2
    rw [hd] at hsome
    simp at hsome
  · intro s hst hnd
    rcases mem_tally.1 hst with ⟨d1, hm1, hb1⟩
    rcases mem_tally.1 hnd with ⟨d2, hm2, hb2⟩
    cases key_unique hkeys hm1 hm2
    simp only [Bool.and_eq_true] at hb1
    have hd : d1 = none := Option.isNone_iff_eq_none.1 hb2
    have hsome := hb1.1
    rw [hd] at hsome
    simp at hsome
  · intro s
    constructor
    · intro hs
      rcases List.mem_map.1 hs with ⟨⟨a, d⟩, hmem, rfl⟩
      cases d with
      | none =>
        exact Or.inr (Or.inr (mem_tally.2 ⟨none, hmem, rfl⟩))
      | some df =>
        by_cases hp : is_picking_up (some df) = true
        · exact Or.inl (mem_tally.2 ⟨some df, hmem, hp⟩)
        · refine Or.inr (Or.inl (mem_tally.2 ⟨some df, hmem, ?_⟩))
          simp [hp]
    · rintro (hs | hs | hs) <;>
        rcases mem_tally.1 hs with ⟨d, hm, _⟩ <;>
        exact List.mem_map_of_mem Prod.fst hm

/-- C7 witness: the partition applied to a concrete three-state result
map with one picking-up, one stable and one absent series. -/
theorem summary_partition_witness :
    (sampleAllData.map Prod.fst).Nodup ∧
      (((∀ s, s ∈ picking_states sampleAllData →
            s ∉ stable_states sampleAllData) ∧
        (∀ s, s ∈ picking_states sampleAllData →
            s ∉ no_data_states sampleAllData) ∧
        (∀ s, s ∈ stable_states sampleAllData →
            s ∉ no_data_states sampleAllData)) ∧
      (∀ s, s ∈ sampleAllData.map Prod.fst ↔
        s ∈ picking_states sampleAllData ∨
          s ∈ stable_states sampleAllData ∨
          s ∈ no_data_states sampleAllData) ∧
      (picking_states sampleAllData).length +
          (stable_states sampleAllData).length +
          (no_data_states sampleAllData).length = sampleAllData.length) :=
  ⟨by decide, summary_partition sampleAllData (by decide)⟩

end App
